import Mathlib

/-!
# Verification of the onepassword provider core (item codec, registry, CLI wrapper)

Shallow embedding of the Go sources under `src/onepassword/`:
`item.go`, `resource_item_identity.go`, `resource_item_document.go`, `vault.go`.

Go strings are Lean `String`s; Go byte slices are `List Nat` (byte values);
Go `interface{}` field values are the inductive `GoValue`; Go maps that the
code iterates over (`SectionGroup.Fields`) are association lists, with the
map property (distinct keys) taken as a hypothesis where a theorem needs it.
External effects (the `op` subprocess, `schema.ResourceData`) are made
explicit: subprocess results are inputs, and `d.Set` calls accumulate in an
explicit state.
-/

namespace OnePassword

/-- Character-list test: `pat` occurs as a contiguous infix of the list. -/
def infixChars (pat : List Char) : List Char → Bool
  | [] => pat.isEmpty
  | c :: rest => pat.isPrefixOf (c :: rest) || infixChars pat rest

/-- Embedding of Go `strings.Contains s pat`. -/
def strContainsSub (s pat : String) : Bool := infixChars pat.toList s.toList

/-- Embedding of Go `strings.HasPrefix s pat` (note Go's argument order is `(s, pat)`). -/
def strHasPre (s pat : String) : Bool := pat.toList.isPrefixOf s.toList

/-- A Go `interface{}` value as stored in a section field: the code only ever
puts strings, ints or string-valued maps (the address object) there. -/
inductive GoValue where
  | vstr (s : String)
  | vint (n : Int)
  | vmap (m : List (String × String))
deriving DecidableEq, Repr

/-! ## Data model (`item.go`) -/

/-- `type Category string` and its constants in `item.go`. -/
abbrev Category := String

def LoginCategory : Category := "Login"
def IdentityCategory : Category := "Identity"
def DatabaseCategory : Category := "Database"
def MembershipCategory : Category := "Membership"
def WirelessRouterCategory : Category := "Wireless Router"
def SecureNoteCategory : Category := "Secure Note"
def SoftwareLicenseCategory : Category := "Software License"
def CreditCardCategory : Category := "Credit Card"
def DriverLicenseCategory : Category := "Driver License"
def OutdoorLicenseCategory : Category := "Outdoor License"
def PassportCategory : Category := "Passport"
def EmailAccountCategory : Category := "Email Account"
def PasswordCategory : Category := "Password"
def RewardProgramCategory : Category := "Reward Program"
def SocialSecurityNumberCategory : Category := "Social Security Number"
def BankAccountCategory : Category := "Bank Account"
def DocumentCategory : Category := "Document"
def ServerCategory : Category := "Server"
def UnknownCategory : Category := "UNKNOWN"

/-- The 18 known categories (every `Category` constant except the Unknown sentinel). -/
def categoryRegistry : List Category :=
  [LoginCategory, IdentityCategory, DatabaseCategory, MembershipCategory,
   WirelessRouterCategory, SecureNoteCategory, SoftwareLicenseCategory,
   CreditCardCategory, DriverLicenseCategory, OutdoorLicenseCategory,
   PassportCategory, EmailAccountCategory, PasswordCategory,
   RewardProgramCategory, SocialSecurityNumberCategory, BankAccountCategory,
   DocumentCategory, ServerCategory]

/-- The 18 template identifiers appearing as cases of `Template2Category`. -/
def knownTemplateIds : List String :=
  ["001", "004", "005", "106", "102", "010", "103", "104", "100",
   "111", "107", "109", "006", "101", "108", "002", "003", "105"]

/-- `Category2Template` from `item.go`: a Go `switch` on the category,
translated as the corresponding chain of equality tests, default `"000"`. -/
def Category2Template (c : Category) : String :=
  if c = LoginCategory then "001"
  else if c = IdentityCategory then "004"
  else if c = PasswordCategory then "005"
  else if c = PassportCategory then "106"
  else if c = DatabaseCategory then "102"
  else if c = ServerCategory then "010"
  else if c = DriverLicenseCategory then "103"
  else if c = OutdoorLicenseCategory then "104"
  else if c = SoftwareLicenseCategory then "100"
  else if c = EmailAccountCategory then "111"
  else if c = RewardProgramCategory then "107"
  else if c = WirelessRouterCategory then "109"
  else if c = DocumentCategory then "006"
  else if c = BankAccountCategory then "101"
  else if c = SocialSecurityNumberCategory then "108"
  else if c = CreditCardCategory then "002"
  else if c = SecureNoteCategory then "003"
  else if c = MembershipCategory then "105"
  else "000"

/-- `Template2Category` from `item.go`: switch on the template id,
default `UnknownCategory`. -/
def Template2Category (t : String) : Category :=
  if t = "001" then LoginCategory
  else if t = "004" then IdentityCategory
  else if t = "005" then PasswordCategory
  else if t = "106" then PassportCategory
  else if t = "102" then DatabaseCategory
  else if t = "010" then ServerCategory
  else if t = "103" then DriverLicenseCategory
  else if t = "104" then OutdoorLicenseCategory
  else if t = "100" then SoftwareLicenseCategory
  else if t = "111" then EmailAccountCategory
  else if t = "107" then RewardProgramCategory
  else if t = "109" then WirelessRouterCategory
  else if t = "006" then DocumentCategory
  else if t = "101" then BankAccountCategory
  else if t = "108" then SocialSecurityNumberCategory
  else if t = "002" then CreditCardCategory
  else if t = "003" then SecureNoteCategory
  else if t = "105" then MembershipCategory
  else UnknownCategory

/-- `Annotation` from `item.go` (vault-rendering hints). -/
structure Annotation where
  generate : String := ""
  guarded : String := ""
  multiline : String := ""
  clipboardFilter : String := ""
deriving DecidableEq, Repr

/-- `SectionField` from `item.go`; the Lean field names follow the JSON tags
(`k` = Type, `t` = Text, `v` = Value, `n` = N, `a` = A, `inputTraits` = Inputs). -/
structure SectionField where
  k : String
  t : String
  v : GoValue
  n : String
  a : Annotation := {}
  inputTraits : List (String × String) := []
deriving DecidableEq, Repr

/-- `Section` from `item.go`. -/
structure Section where
  name : String
  title : String
  fields : List SectionField
deriving DecidableEq, Repr

/-- `SectionGroup` from `item.go`; the Go `map[string]string` of fields is an
association list `configuration key ↦ vault field-name key`. -/
structure SectionGroup where
  selector : String
  name : String
  fields : List (String × String)
deriving DecidableEq, Repr

/-- `DocumentAttributes` from `item.go`. -/
structure DocumentAttributes where
  fileName : String
deriving DecidableEq, Repr

/-- `Overview` from `item.go`. -/
structure Overview where
  title : String := ""
  url : String := ""
  tags : List String := []
deriving DecidableEq, Repr

/-- `Details` from `item.go`; the `*DocumentAttributes` pointer (nil or set)
is an `Option`. The flat legacy `fields` list is omitted as no embedded code
reads or writes it. -/
structure Details where
  notes : String := ""
  password : String := ""
  sections : List Section := []
  documentAttributes : Option DocumentAttributes := none
deriving DecidableEq, Repr

/-- `Item` from `item.go`. -/
structure Item where
  uuid : String := ""
  template : String := ""
  vault : String := ""
  overview : Overview := {}
  details : Details := {}
  trashed : String := ""
deriving DecidableEq, Repr

/-- `const IsTrashed = "Y"`. -/
def IsTrashed : String := "Y"

/-! ## Decode direction: `ProcessField` / `ProcessSections` (`item.go`) -/

/-- The generic configuration key chosen by the `switch field.Type` inside
`ProcessField`: `menu→sex`, `URL→url`, `monthYear→month_year`,
`cctype→card_type`, `concealed→totp` when the field-name key has prefix
`TOTP_` else `concealed`, default the kind itself. -/
def fieldKeyOf (f : SectionField) : String :=
  if f.k = "menu" then "sex"
  else if f.k = "URL" then "url"
  else if f.k = "monthYear" then "month_year"
  else if f.k = "cctype" then "card_type"
  else if f.k = "concealed" then
    if strHasPre f.n "TOTP_" then "totp" else "concealed"
  else f.k

/-- One entry of the generic field list: the map
`{"name": field.Text, <key>: field.Value}` built by `ProcessField`. -/
structure RenderedField where
  name : String
  key : String
  value : GoValue
deriving DecidableEq, Repr

/-- `ProcessField` from `item.go`. -/
def ProcessField (srcFields : List SectionField) : List RenderedField :=
  srcFields.map fun f => { name := f.t, key := fieldKeyOf f, value := f.v }

/-- One entry of the generic sections list: the map
`{"name": section.Title, "field": ProcessField(section.Fields)}`. -/
structure RenderedSection where
  name : String
  field : List RenderedField
deriving DecidableEq, Repr

/-- `ProcessSections` from `item.go`. -/
def ProcessSections (srcSections : List Section) : List RenderedSection :=
  srcSections.map fun s => { name := s.title, field := ProcessField s.fields }

/-! ## Association-list maps (Go map writes / `d.Set` calls) -/

/-- Insert with overwrite: the write semantics of a Go map assignment
(`src[k] = v`) and of `schema.ResourceData.Set`. -/
def insertOv {α : Type} : List (String × α) → String → α → List (String × α)
  | [], key, val => [(key, val)]
  | (k0, v0) :: rest, key, val =>
    if k0 = key then (key, val) :: rest else (k0, v0) :: insertOv rest key val

/-- Lookup in an association list (first binding wins; with `insertOv` keys
are unique, so this is Go map indexing). -/
def slookup {α : Type} : List (String × α) → String → Option α
  | [], _ => none
  | (k0, v0) :: rest, key => if k0 = key then some v0 else slookup rest key

/-- A value stored in the `src` map that `parseSectionFromSchema` builds for a
matching group: either a section-field value or the re-encoded leftover list
under the `"field"` key. -/
inductive ConfigVal where
  | gv (v : GoValue)
  | flds (fs : List RenderedField)
deriving DecidableEq, Repr

/-- The `src` map of `parseSectionFromSchema`. -/
abbrev Src := List (String × ConfigVal)

/-- A value passed to `d.Set`: for a group name, the one-element list holding
the group's `src` map; for `"section"`, the generic rendered sections. -/
inductive StateVal where
  | groupVal (src : Src)
  | sectionsVal (ss : List RenderedSection)
deriving DecidableEq, Repr

/-- The accumulated `d.Set` state of a `schema.ResourceData`. -/
abbrev DState := List (String × StateVal)

/-! ## Decode: `parseSectionFromSchema` (`item.go`) -/

/-- The inner `for k, f := range group.Fields` scan of
`parseSectionFromSchema` for one section field: every pair whose value equals
the field's name key writes the field's value into `src` under the pair's
configuration key. -/
def fieldListWrite (pairs : List (String × String)) (fl : SectionField)
    (s : Src) : Src :=
  pairs.foldl (fun s p => if p.2 = fl.n then insertOv s p.1 (.gv fl.v) else s) s

/-- The body of `for _, field := range section.Fields` in
`parseSectionFromSchema`: scan the group's field map, marking the field found
when any pair matched; an unfound field is appended to `leftFields`. -/
def sectionFieldStep (g : SectionGroup) (acc : Src × List SectionField)
    (fl : SectionField) : Src × List SectionField :=
  let found := g.fields.any fun p => p.2 = fl.n
  let src := fieldListWrite g.fields fl acc.1
  if found then (src, acc.2) else (src, acc.2 ++ [fl])

/-- The body of `if section.Name == group.Selector` in
`parseSectionFromSchema`: build `src` from `{"title": section.Title}`,
partition the fields, and store the re-encoded leftovers under `"field"`. -/
def processGroupSection (s : Section) (g : SectionGroup) : Src :=
  let start : Src × List SectionField := ([("title", .gv (.vstr s.title))], [])
  let res := s.fields.foldl (sectionFieldStep g) start
  insertOv res.1 "field" (.flds (ProcessField res.2))

/-- The inner `for _, group := range groups` loop of `parseSectionFromSchema`
for one section: returns the Go `use` flag and the sequence of
`d.Set(group.Name, ...)` calls it makes, in group-list order (the Go loop has
no break, so every matching group is processed). -/
def groupLoop (s : Section) (groups : List SectionGroup) :
    Bool × List (String × Src) :=
  groups.foldl
    (fun acc g =>
      if s.name = g.selector then
        (true, acc.2 ++ [(g.name, processGroupSection s g)])
      else acc)
    (false, [])

/-- `parseSectionFromSchema` from `item.go`: process every section against
every group, collect sections that matched no group (`use` stayed false) into
`leftSections` in input order, and finally set `"section"` to their generic
rendering. `d.Set` is modelled as the always-succeeding state update. -/
def parseSectionFromSchema (sections : List Section) (d : DState)
    (groups : List SectionGroup) : DState :=
  let res := sections.foldl
    (fun (acc : DState × List Section) sec =>
      let gl := groupLoop sec groups
      let d2 := gl.2.foldl (fun st e => insertOv st e.1 (.groupVal e.2)) acc.1
      if gl.1 then (d2, acc.2) else (d2, acc.2 ++ [sec]))
    (d, [])
  insertOv res.1 "section" (.sectionsVal (ProcessSections res.2))

/-! ## Process runner outcomes, `itemNotFound`, `ReadItem` (`item.go`) -/

/-- The error produced by a finished subprocess: a Go `*exec.ExitError`
carrying the exit code, or any other error value. -/
inductive CmdErr where
  | exitErr (code : Int)
  | otherErr
deriving DecidableEq, Repr

/-- `itemNotFound` from `item.go`: soft-miss classification from exit code
and combined output. -/
def itemNotFound (res : String) (err : Option CmdErr) : Bool :=
  match err with
  | some (.exitErr code) =>
    (code == 1 && strContainsSub res "isn't an item in") ||
    (code == 4 && strContainsSub res "The requested resource was not found")
  | _ => false

/-- `ReadItem` from `item.go`, as a function of the subprocess outcome
`(res, err)` and of JSON decoding (`parse`, for `json.Unmarshal`):
`.ok none` is the soft miss `(nil, nil)`, `.error ()` a hard error,
`.ok (some item)` a successful read. -/
def ReadItem (parse : String → Except String Item) (res : String)
    (err : Option CmdErr) : Except Unit (Option Item) :=
  match err with
  | some e =>
    if itemNotFound res (some e) then .ok none else .error ()
  | none =>
    match parse res with
    | .ok item => .ok (some item)
    | .error _ => .error ()

/-! ## Base64 (Go `encoding/base64` standard alphabet, and the URL-safe
unpadded variant used for the details blob) -/

def base64StdAlphabet : List Char :=
  "ABCDEFGHIJKLMNOPQRSTUVWXYZabcdefghijklmnopqrstuvwxyz0123456789+/".toList

def base64UrlAlphabet : List Char :=
  "ABCDEFGHIJKLMNOPQRSTUVWXYZabcdefghijklmnopqrstuvwxyz0123456789-_".toList

/-- Emit the 6-bit groups of a byte sequence, 3 bytes → 4 sextets, with the
tail cases of RFC 4648 (1 byte → 2 sextets, 2 bytes → 3 sextets). -/
def base64Sextets : List Nat → List Nat
  | [] => []
  | [b1] => [b1 / 4, b1 % 4 * 16]
  | [b1, b2] => [b1 / 4, b1 % 4 * 16 + b2 / 16, b2 % 16 * 4]
  | b1 :: b2 :: b3 :: rest =>
    b1 / 4 :: (b1 % 4 * 16 + b2 / 16) :: (b2 % 16 * 4 + b3 / 64) :: b3 % 64 ::
      base64Sextets rest

/-- `b64.StdEncoding.EncodeToString`: standard alphabet, `=`-padded to a
multiple of four characters. -/
def base64Encode (bs : List Nat) : String :=
  let body := String.mk ((base64Sextets bs).map fun n => base64StdAlphabet.getD n 'A')
  match bs.length % 3 with
  | 1 => body ++ "=="
  | 2 => body ++ "="
  | _ => body

/-- `base64url.Encode` (github.com/kalaspuffar/base64url): URL-safe alphabet,
no padding. -/
def base64urlEncode (bs : List Nat) : String :=
  String.mk ((base64Sextets bs).map fun n => base64UrlAlphabet.getD n 'A')

/-! ## Item / document operations (`item.go`) -/

/-- Modelled from the spec: the command constants `opPasswordGet` /
`opPasswordCreate` live in a file not under `src/`; §6 fixes the argument
vector to begin with the verbs `get` / `create`. -/
def opPasswordGet : String := "get"

/-- Modelled from the spec: see `opPasswordGet`. -/
def opPasswordCreate : String := "create"

def ItemResource : String := "item"
def DocumentResource : String := "document"
def VaultResource : String := "vault"

/-- `const Stdin = "-"`. -/
def Stdin : String := "-"

/-- An error returned by `CreateItem` / `CreateDocument`: the unknown-template
check, or `prettyError` wrapping a failed command. -/
inductive OpErr where
  | unknownTemplate (t : String)
  | cmdFailure (args : List String) (res : String)
deriving DecidableEq, Repr

/-- The argument vector built by `CreateItem`; `marshal` stands for
`json.Marshal` on the details (total for these value shapes). -/
def CreateItemArgs (marshal : Details → String) (v : Item) : List String :=
  [opPasswordCreate, ItemResource,
   Template2Category v.template,
   base64urlEncode ((marshal v.details).toUTF8.toList.map UInt8.toNat)]
  ++ (if v.vault ≠ "" then ["--vault=" ++ v.vault] else [])
  ++ (if v.overview.title ≠ "" then ["--title=" ++ v.overview.title] else [])
  ++ (if v.overview.url ≠ "" then ["--url=" ++ v.overview.url] else [])
  ++ (if v.overview.tags.length > 0 then
        ["--tags=" ++ String.intercalate "," v.overview.tags] else [])

/-- `CreateItem` from `item.go`, as a function of the subprocess outcome
`(res, err)` and of `getResultID` (defined outside `src/`): the unknown
template is rejected first; on command success the new UUID is assigned only
when extraction succeeds, and the `return err` after the inner `if` refers to
the outer (nil) error — the extraction error is shadowed and discarded. -/
def CreateItem (marshal : Details → String)
    (getResultID : String → Except String String) (v : Item) (res : String)
    (err : Option CmdErr) : Item × Option OpErr :=
  if Template2Category v.template = UnknownCategory then
    (v, some (.unknownTemplate v.template))
  else
    match err with
    | none =>
      match getResultID res with
      | .ok id => ({ v with uuid := id }, none)
      | .error _ => (v, none)
    | some _ => (v, some (.cmdFailure (CreateItemArgs marshal v) res))

/-- `ReadDocument` from `item.go`: the raw stdout bytes are returned as-is on
success; a failed command is wrapped by `prettyError`. -/
def ReadDocument (content : List Nat) (err : Option CmdErr) :
    Except Unit (List Nat) :=
  match err with
  | none => .ok content
  | some _ => .error ()

/-- The argument vector built by `CreateDocument` (after the unguarded
dereference of `v.Details.DocumentAttributes`, here passed as `attrs`). -/
def CreateDocumentArgs (v : Item) (attrs : DocumentAttributes) : List String :=
  [opPasswordCreate, DocumentResource, Stdin,
   "--title=" ++ v.overview.title,
   "--filename=" ++ attrs.fileName]
  ++ (if v.overview.tags.length > 0 then
        ["--tags=" ++ String.intercalate "," v.overview.tags] else [])
  ++ (if v.vault ≠ "" then ["--vault=" ++ v.vault] else [])

/-- The subprocess request `CreateDocument` hands to `RunStdinCmd`: argument
vector plus the bytes piped to standard input. -/
structure StdinCmd where
  args : List String
  stdinBytes : List Nat
deriving DecidableEq, Repr

/-- `CreateDocument`'s invocation of `RunStdinCmd(content, args...)`: the
content bytes are passed through untransformed. -/
def CreateDocumentCmd (v : Item) (attrs : DocumentAttributes)
    (content : List Nat) : StdinCmd :=
  { args := CreateDocumentArgs v attrs, stdinBytes := content }

/-- `CreateDocument` from `item.go`, as a function of the subprocess outcome
of the `CreateDocumentCmd` request; same UUID-extraction shadowing as
`CreateItem`, and no template check. -/
def CreateDocument (getResultID : String → Except String String) (v : Item)
    (attrs : DocumentAttributes) (res : String)
    (err : Option CmdErr) : Item × Option OpErr :=
  match err with
  | none =>
    match getResultID res with
    | .ok id => ({ v with uuid := id }, none)
    | .error _ => (v, none)
  | some _ => (v, some (.cmdFailure (CreateDocumentArgs v attrs) res))

/-! ## Resource read functions (`resource_item_identity.go`,
`resource_item_document.go`) -/

/-- The three `SectionGroup` literals passed to `parseSectionFromSchema` by
`resourceItemIdentityRead`. -/
def identityGroups : List SectionGroup :=
  [{ selector := "name", name := "identification",
     fields := [("firstname", "firstname"), ("initial", "initial"),
                ("lastname", "lastname"), ("sex", "sex"),
                ("birth_date", "birthdate"), ("occupation", "occupation"),
                ("company", "company"), ("department", "department"),
                ("job_title", "jobtitle")] },
   { selector := "address", name := "address",
     fields := [("address", "address"), ("default_phone", "defphone"),
                ("home_phone", "homephone"), ("cell_phone", "cellphone"),
                ("business_phone", "busphone")] },
   { selector := "internet", name := "internet",
     fields := [("username", "username"), ("email", "email")] }]

/-- The configuration state written by a successful identity read. -/
structure IdentityState where
  id : String
  name : String
  tags : List String
  vault : String
  notes : String
  sectionsState : DState
  archived : Bool
deriving DecidableEq, Repr

/-- Outcome of `resourceItemIdentityRead`. -/
inductive IdentityReadResult where
  | hardErr
  | softMiss
  | ok (st : IdentityState)
deriving DecidableEq, Repr

/-- `resourceItemIdentityRead` from `resource_item_identity.go`, as a function
of the `ReadItem` result: read error → diagnostics; nil item → clear the id
(soft miss); wrong template → hard error; otherwise populate the attributes
and decode the sections under `identityGroups`. -/
def resourceItemIdentityRead (readRes : Except Unit (Option Item)) :
    IdentityReadResult :=
  match readRes with
  | .error _ => .hardErr
  | .ok none => .softMiss
  | .ok (some v) =>
    if v.template ≠ Category2Template IdentityCategory then .hardErr
    else
      .ok { id := v.uuid
            name := v.overview.title
            tags := v.overview.tags
            vault := v.vault
            notes := v.details.notes
            sectionsState := parseSectionFromSchema v.details.sections [] identityGroups
            archived := v.trashed = IsTrashed }

/-- The configuration state written by a successful document read; `content`
keeps Go's `string(content)` as the raw byte list (a Go string conversion from
`[]byte` is byte-identical). -/
structure DocState where
  id : String
  name : String
  tags : List String
  vault : String
  filename : String
  archived : Bool
  content : List Nat
  contentBase64 : String
deriving DecidableEq, Repr

/-- Outcome of `resourceItemDocumentRead`; `nilDeref` is the unguarded
`v.Details.DocumentAttributes.FileName` dereference hitting a nil pointer. -/
inductive DocReadResult where
  | hardErr
  | softMiss
  | nilDeref
  | ok (st : DocState)
deriving DecidableEq, Repr

/-- `resourceItemDocumentRead` from `resource_item_document.go`, as a function
of the `ReadItem` result and of the `ReadDocument` result for the item's UUID:
read error → diagnostics; nil item → soft miss; wrong template → hard error;
then the unguarded `documentAttributes` dereference; then the content fetch,
whose bytes populate `content` raw and `content_base64` base64-encoded. -/
def resourceItemDocumentRead (readRes : Except Unit (Option Item))
    (docRes : Except Unit (List Nat)) : DocReadResult :=
  match readRes with
  | .error _ => .hardErr
  | .ok none => .softMiss
  | .ok (some v) =>
    if v.template ≠ Category2Template DocumentCategory then .hardErr
    else
      match v.details.documentAttributes with
      | none => .nilDeref
      | some attrs =>
        match docRes with
        | .error _ => .hardErr
        | .ok content =>
          .ok { id := v.uuid
                name := v.overview.title
                tags := v.overview.tags
                vault := v.vault
                filename := attrs.fileName
                archived := v.trashed = IsTrashed
                content := content
                contentBase64 := base64Encode content }

/-! ## Encode direction: `resourceItemIdentityCreate`
(`resource_item_identity.go`) -/

/-- One freeform configuration field inside a group's `"field"` list: a name
plus exactly one kind-keyed value attribute (`kind` is the generic
configuration key, e.g. `"string"`, `"totp"`, `"sex"`). -/
structure FreeField where
  name : String
  kind : String
  value : GoValue
deriving DecidableEq, Repr

/-- Modelled from the spec: `ParseFields` (defined outside `src/`) encodes
each freeform configuration field of a group generically by field-kind — the
display text comes from the field's name, the vault field-kind is the inverse
of the generic field-kind → configuration key mapping of §4.3 (`sex→menu`,
`url→URL`, `month_year→monthYear`, `card_type→cctype`, `totp→concealed` with
a `TOTP_`-prefixed field-name key), and freeform fields round-trip by
field-name key. -/
def ParseFieldsModel (fs : List FreeField) : List SectionField :=
  fs.map fun f =>
    if f.kind = "totp" then
      { k := "concealed", t := f.name, v := f.value, n := "TOTP_" ++ f.name }
    else
      { k := if f.kind = "sex" then "menu"
             else if f.kind = "url" then "URL"
             else if f.kind = "month_year" then "monthYear"
             else if f.kind = "card_type" then "cctype"
             else f.kind
        t := f.name, v := f.value, n := f.name }

/-- The single-entry `identification` group of the identity configuration
(`main` in `resourceItemIdentityCreate`). -/
structure IdentificationCfg where
  title : String := "Identification"
  firstname : String := ""
  initial : String := ""
  lastname : String := ""
  sex : String := ""
  birth_date : Int := 0
  occupation : String := ""
  company : String := ""
  department : String := ""
  job_title : String := ""
  field : List FreeField := []
deriving DecidableEq, Repr

/-- The single-entry `address` group of the identity configuration. -/
structure AddressCfg where
  title : String := "Address"
  address : List (String × String) := []
  default_phone : String := ""
  home_phone : String := ""
  cell_phone : String := ""
  business_phone : String := ""
  field : List FreeField := []
deriving DecidableEq, Repr

/-- The single-entry `internet` group of the identity configuration. -/
structure InternetCfg where
  title : String := "Internet Details"
  username : String := ""
  email : String := ""
  field : List FreeField := []
deriving DecidableEq, Repr

def wordsCap : List (String × String) := [("autocapitalization", "Words")]
def sentencesCap : List (String × String) := [("autocapitalization", "Sentences")]
def guardedA : Annotation := { guarded := "yes" }

/-- The `name` section built by `resourceItemIdentityCreate`: the nine
well-known identification fields with their annotations and input traits, then
the freeform fields. -/
def buildIdentificationSection (main : IdentificationCfg) : Section :=
  { name := "name", title := main.title,
    fields :=
      [{ k := "string", t := "firstname", v := .vstr main.firstname,
         n := "firstname", a := guardedA, inputTraits := wordsCap },
       { k := "string", t := "initial", v := .vstr main.initial,
         n := "initial", a := guardedA, inputTraits := wordsCap },
       { k := "string", t := "lastname", v := .vstr main.lastname,
         n := "lastname", a := guardedA, inputTraits := wordsCap },
       { k := "menu", t := "sex", v := .vstr main.sex,
         n := "sex", a := guardedA },
       { k := "date", t := "birth date", v := .vint main.birth_date,
         n := "birthdate", a := guardedA },
       { k := "string", t := "occupation", v := .vstr main.occupation,
         n := "occupation", a := guardedA, inputTraits := wordsCap },
       { k := "string", t := "company", v := .vstr main.company,
         n := "company", a := guardedA, inputTraits := wordsCap },
       { k := "string", t := "department", v := .vstr main.department,
         n := "department", a := guardedA, inputTraits := wordsCap },
       { k := "string", t := "job title", v := .vstr main.job_title,
         n := "jobtitle", a := guardedA, inputTraits := wordsCap }]
      ++ ParseFieldsModel main.field }

/-- The `address` section built by `resourceItemIdentityCreate`. -/
def buildAddressSection (address : AddressCfg) : Section :=
  { name := "address", title := address.title,
    fields :=
      [{ k := "address", t := "address", v := .vmap address.address,
         n := "address", a := guardedA, inputTraits := sentencesCap },
       { k := "phone", t := "default phone", v := .vstr address.default_phone,
         n := "defphone", a := guardedA },
       { k := "phone", t := "home", v := .vstr address.home_phone,
         n := "homephone", a := guardedA },
       { k := "phone", t := "cell", v := .vstr address.cell_phone,
         n := "cellphone", a := guardedA },
       { k := "phone", t := "business", v := .vstr address.business_phone,
         n := "busphone", a := guardedA }]
      ++ ParseFieldsModel address.field }

/-- The `internet` section built by `resourceItemIdentityCreate`. -/
def buildInternetSection (internet : InternetCfg) : Section :=
  { name := "internet", title := internet.title,
    fields :=
      [{ k := "string", t := "username", v := .vstr internet.username,
         n := "username", a := guardedA, inputTraits := sentencesCap },
       { k := "string", t := "email", v := .vstr internet.email,
         n := "email", a := guardedA,
         inputTraits := [("keyboard", "EmailAddress")] }]
      ++ ParseFieldsModel internet.field }

/-- The full `Details.Sections` list built by `resourceItemIdentityCreate`:
the three group sections followed by the generic extra sections
(`ParseSections(d)`, here an explicit argument since that helper is defined
outside `src/`). -/
def buildIdentitySections (main : IdentificationCfg) (address : AddressCfg)
    (internet : InternetCfg) (extraSections : List Section) : List Section :=
  [buildIdentificationSection main, buildAddressSection address,
   buildInternetSection internet] ++ extraSections

/-- Read one named attribute of a decoded group out of the `d.Set` state. -/
def groupAttr (st : DState) (grp attr : String) : Option ConfigVal :=
  match slookup st grp with
  | some (.groupVal src) => slookup src attr
  | _ => none

/-- Read the extra-fields (leftover) list of a decoded group out of the
`d.Set` state. -/
def groupExtraFields (st : DState) (grp : String) : List RenderedField :=
  match groupAttr st grp "field" with
  | some (.flds fs) => fs
  | _ => []

/-! ## Concrete inputs used by the round-trip and counterexample theorems -/

/-- The identification configuration of the round-trip check: Ada Lovelace
plus one freeform field of kind `string` keyed `nickname`. -/
def adaMain : IdentificationCfg :=
  { firstname := "Ada", lastname := "Lovelace", sex := "female",
    field := [{ name := "nickname", kind := "string",
                value := .vstr "Countess" }] }

/-- Encode-then-decode of the Ada configuration: the vault sections built by
`resourceItemIdentityCreate`, decoded by `parseSectionFromSchema` under the
identity group definitions. -/
def adaDecoded : DState :=
  parseSectionFromSchema (buildIdentitySections adaMain {} {} []) []
    identityGroups

/-- Two groups sharing the selector `"s"`: input showing that a section is
processed for every matching group, not only the first. -/
def cexGroups : List SectionGroup :=
  [{ selector := "s", name := "a", fields := [("x", "n1")] },
   { selector := "s", name := "b", fields := [("x", "n1")] }]

/-- A single vault section named `"s"` with one field. -/
def cexSections : List Section :=
  [{ name := "s", title := "T",
     fields := [{ k := "string", t := "f1", v := .vstr "v1", n := "n1" }] }]

/-! ## Helper lemmas -/

theorem slookup_insertOv_self {α : Type} (l : List (String × α)) (k : String)
    (v : α) : slookup (insertOv l k v) k = some v := by
  induction l with
  | nil => simp [insertOv, slookup]
  | cons hd tl ih =>
    by_cases h : hd.1 = k
    · simp [insertOv, h, slookup]
    · simp [insertOv, h, slookup, ih]

theorem slookup_insertOv_ne {α : Type} (l : List (String × α)) {k k' : String}
    (v : α) (h : k' ≠ k) : slookup (insertOv l k' v) k = slookup l k := by
  induction l with
  | nil => simp [insertOv, slookup, h]
  | cons hd tl ih =>
    by_cases h0 : hd.1 = k'
    · simp [insertOv, h0, slookup, h]
    · by_cases h1 : hd.1 = k
      · simp [insertOv, h0, slookup, h1, Ne.symm h]
      · simp [insertOv, h0, slookup, h1, ih]

/-! ## C5 / C8: category-template registry -/

/-- C5: for every Category in the registry,
`Template2Category (Category2Template c) = c`. -/
theorem category_template_round_trip :
    ∀ c ∈ categoryRegistry, Template2Category (Category2Template c) = c := by
  decide

/-- Witness for C5 at the `Login` category. -/
theorem category_template_round_trip_witness :
    LoginCategory ∈ categoryRegistry ∧
      Template2Category (Category2Template LoginCategory) = LoginCategory :=
  ⟨by decide, category_template_round_trip LoginCategory (by decide)⟩

/-- C8: both registry functions are total with sentinel defaults —
`Template2Category "999" = UnknownCategory`, every template id outside the
fixed table maps to the Unknown sentinel, and every category outside the
registry maps to `"000"`. -/
theorem registry_totality_sentinels :
    Template2Category "999" = UnknownCategory ∧
      (∀ t : String, t ∉ knownTemplateIds → Template2Category t = UnknownCategory) ∧
      (∀ c : Category, c ∉ categoryRegistry → Category2Template c = "000") := by
  refine ⟨by decide, ?_, ?_⟩
  · intro t h
    simp only [knownTemplateIds, List.mem_cons, List.not_mem_nil, or_false,
      not_or] at h
    obtain ⟨h1, h2, h3, h4, h5, h6, h7, h8, h9, h10, h11, h12, h13, h14, h15,
      h16, h17, h18⟩ := h
    simp [Template2Category, h1, h2, h3, h4, h5, h6, h7, h8, h9, h10, h11,
      h12, h13, h14, h15, h16, h17, h18]
  · intro c h
    simp only [categoryRegistry, LoginCategory, IdentityCategory,
      DatabaseCategory, MembershipCategory, WirelessRouterCategory,
      SecureNoteCategory, SoftwareLicenseCategory, CreditCardCategory,
      DriverLicenseCategory, OutdoorLicenseCategory, PassportCategory,
      EmailAccountCategory, PasswordCategory, RewardProgramCategory,
      SocialSecurityNumberCategory, BankAccountCategory, DocumentCategory,
      ServerCategory, List.mem_cons, List.not_mem_nil, or_false,
      not_or] at h
    obtain ⟨h1, h2, h3, h4, h5, h6, h7, h8, h9, h10, h11, h12, h13, h14, h15,
      h16, h17, h18⟩ := h
    simp [Category2Template, LoginCategory, IdentityCategory, PasswordCategory,
      PassportCategory, DatabaseCategory, ServerCategory, DriverLicenseCategory,
      OutdoorLicenseCategory, SoftwareLicenseCategory, EmailAccountCategory,
      RewardProgramCategory, WirelessRouterCategory, DocumentCategory,
      BankAccountCategory, SocialSecurityNumberCategory, CreditCardCategory,
      SecureNoteCategory, MembershipCategory, h1, h2, h3, h4, h5, h6, h7, h8,
      h9, h10, h11, h12, h13, h14, h15, h16, h17, h18]

/-- Witness for C8 at template id `"999"` and category `"Wine"`. -/
theorem registry_totality_sentinels_witness :
    Template2Category "999" = UnknownCategory ∧
      Template2Category "123" = UnknownCategory ∧
      Category2Template "Wine" = "000" :=
  ⟨registry_totality_sentinels.1,
   registry_totality_sentinels.2.1 "123" (by decide),
   registry_totality_sentinels.2.2 "Wine" (by decide)⟩

/-! ## C4: soft-miss classification on item read -/

/-- C4 counterexample: the claim says exit code 4 with output containing
`"resource was not found"` is a soft miss, but `itemNotFound` requires the
longer phrase `"The requested resource was not found"`; on the output
`"resource was not found"` (which does contain the claimed substring) the
code returns a hard error, not an empty result. -/
theorem readItem_softmiss_counterexample :
    strContainsSub "resource was not found" "resource was not found" = true ∧
      ReadItem (fun r => .ok { uuid := r }) "resource was not found"
        (some (.exitErr 4)) = .error () := by
  refine ⟨by decide, ?_⟩
  simp only [ReadItem, itemNotFound]
  rfl

/-- C4 amended: soft miss iff exit code 1 with output containing
`"isn't an item in"`, or exit code 4 with output containing
`"The requested resource was not found"`; every other nonzero-exit outcome
(including non-exit errors) is a hard error, and a soft miss is the empty
result with no error. -/
theorem readItem_softmiss_classification :
    ∀ (parse : String → Except String Item) (res : String) (code : Int),
      (ReadItem parse res (some (.exitErr code)) =
        (if (code == 1 && strContainsSub res "isn't an item in") ||
            (code == 4 && strContainsSub res "The requested resource was not found")
         then Except.ok none else Except.error ())) ∧
      ReadItem parse res (some .otherErr) = .error () := by
  intro parse res code
  constructor
  · simp only [ReadItem, itemNotFound]
  · simp [ReadItem, itemNotFound]

/-! ## C9: create-path UUID-extraction error is shadowed -/

/-- C9: when the external create command succeeds (`err = none`), both
`CreateItem` (for a known template) and `CreateDocument` return no error even
if `getResultID` fails, and in that failure case the item is returned
unchanged (the UUID keeps its prior value). -/
theorem create_shadows_extraction_error :
    ∀ (marshal : Details → String)
      (getResultID : String → Except String String) (v : Item)
      (attrs : DocumentAttributes) (res : String),
      (Template2Category v.template ≠ UnknownCategory →
        (CreateItem marshal getResultID v res none).2 = none ∧
        (∀ e, getResultID res = .error e →
          (CreateItem marshal getResultID v res none).1 = v)) ∧
      ((CreateDocument getResultID v attrs res none).2 = none ∧
        (∀ e, getResultID res = .error e →
          (CreateDocument getResultID v attrs res none).1 = v)) := by
  intro marshal getResultID v attrs res
  refine ⟨fun htmpl => ⟨?_, fun e he => ?_⟩, ?_, fun e he => ?_⟩
  · simp only [CreateItem, if_neg htmpl]
    cases h : getResultID res <;> simp [h]
  · simp [CreateItem, if_neg htmpl, he]
  · simp only [CreateDocument]
    cases h : getResultID res <;> simp [h]
  · simp [CreateDocument, he]

/-- Witness for C9: a concrete item with the Login template, an extractor
that always fails, and an empty command output. -/
theorem create_shadows_extraction_error_witness :
    (CreateItem (fun _ => "") (fun _ => .error "no uuid")
        { template := "001" } "" none).2 = none ∧
      (CreateItem (fun _ => "") (fun _ => .error "no uuid")
        { template := "001" } "" none).1 = { template := "001" } ∧
      (CreateDocument (fun _ => .error "no uuid") { template := "006" }
        { fileName := "f" } "" none).2 = none ∧
      (CreateDocument (fun _ => .error "no uuid") { template := "006" }
        { fileName := "f" } "" none).1 = { template := "006" } := by
  have h := create_shadows_extraction_error (fun _ => "")
    (fun _ => .error "no uuid") { template := "001" } { fileName := "f" } ""
  have h2 := create_shadows_extraction_error (fun _ => "")
    (fun _ => .error "no uuid") { template := "006" } { fileName := "f" } ""
  exact ⟨(h.1 (by decide)).1, (h.1 (by decide)).2 "no uuid" rfl,
    h2.2.1, h2.2.2 "no uuid" rfl⟩

/-! ## C6: wrong-category typed read fails hard -/

/-- C6: a successfully fetched item whose template does not match the
expected category of the typed resource makes the read fail hard — the
identity read rejects non-`004` templates, the document read rejects non-`006`
templates — and the hard error is distinct from the soft-miss outcome. -/
theorem typed_read_wrong_category_hard :
    (∀ v : Item, v.template ≠ Category2Template IdentityCategory →
        resourceItemIdentityRead (.ok (some v)) = .hardErr) ∧
      (∀ (v : Item) (docRes : Except Unit (List Nat)),
        v.template ≠ Category2Template DocumentCategory →
          resourceItemDocumentRead (.ok (some v)) docRes = .hardErr) ∧
      IdentityReadResult.hardErr ≠ IdentityReadResult.softMiss ∧
      DocReadResult.hardErr ≠ DocReadResult.softMiss := by
  refine ⟨fun v h => ?_, fun v docRes h => ?_, by decide, by decide⟩
  · simp [resourceItemIdentityRead, h]
  · simp [resourceItemDocumentRead, h]

/-- Witness for C6: a fetched Login item (`001`) under both typed reads. -/
theorem typed_read_wrong_category_hard_witness :
    resourceItemIdentityRead (.ok (some { template := "001" })) = .hardErr ∧
      resourceItemDocumentRead (.ok (some { template := "001" }))
        (.ok []) = .hardErr :=
  ⟨typed_read_wrong_category_hard.1 { template := "001" } (by decide),
   typed_read_wrong_category_hard.2.1 { template := "001" } (.ok [])
     (by decide)⟩

/-! ## C7: document content attributes and raw stdin transport -/

/-- C7: for every byte sequence `B` returned by `ReadDocument`, the document
read sets `content_base64` to the standard base64 encoding of `B` and
`content` to `B` itself (Go's `string(content)` conversion); and on create
the bytes are piped to the subprocess standard input untransformed, with the
literal `"-"` placeholder as the third argument. -/
theorem document_content_attributes :
    ∀ (v : Item) (attrs : DocumentAttributes) (B : List Nat),
      v.template = Category2Template DocumentCategory →
      v.details.documentAttributes = some attrs →
      (∃ st, resourceItemDocumentRead (.ok (some v)) (ReadDocument B none) = .ok st ∧
        st.content = B ∧ st.contentBase64 = base64Encode B) ∧
      (CreateDocumentCmd v attrs B).stdinBytes = B ∧
      (CreateDocumentCmd v attrs B).args.get? 2 = some Stdin := by
  intro v attrs B htmpl hattrs
  refine ⟨⟨{ id := v.uuid, name := v.overview.title, tags := v.overview.tags,
             vault := v.vault, filename := attrs.fileName,
             archived := v.trashed = IsTrashed, content := B,
             contentBase64 := base64Encode B }, ?_, rfl, rfl⟩, rfl, ?_⟩
  · simp [resourceItemDocumentRead, ReadDocument, htmpl, hattrs]
  · simp [CreateDocumentCmd, CreateDocumentArgs]

/-- Witness for C7: the bytes of `"Man"` round through the read with
`content_base64 = "TWFu"`. -/
theorem document_content_attributes_witness :
    (∃ st,
      resourceItemDocumentRead
          (.ok (some { template := "006",
                       details := { documentAttributes := some { fileName := "f" } } }))
          (ReadDocument [77, 97, 110] none) = .ok st ∧
        st.content = [77, 97, 110] ∧ st.contentBase64 = base64Encode [77, 97, 110]) ∧
      base64Encode [77, 97, 110] = "TWFu" ∧ base64Encode [77, 97] = "TWE=" ∧
      base64Encode [77] = "TQ==" := by
  refine ⟨(document_content_attributes
    { template := "006",
      details := { documentAttributes := some { fileName := "f" } } }
    { fileName := "f" } [77, 97, 110] (by decide) rfl).1, by decide, by decide,
    by decide⟩

/-! ## C10: unguarded `documentAttributes` dereference -/

/-- C10: the document read dereferences `Details.DocumentAttributes` with no
nil guard — for every fetched Document-template item without document
attributes the read hits the nil dereference (for any outcome of the content
fetch), and the dereference-failure branch is unreachable exactly when the
attributes are present. -/
theorem document_read_nil_deref :
    (∀ (v : Item) (docRes : Except Unit (List Nat)),
        v.template = Category2Template DocumentCategory →
        v.details.documentAttributes = none →
        resourceItemDocumentRead (.ok (some v)) docRes = .nilDeref) ∧
      (∀ (v : Item) (docRes : Except Unit (List Nat)) (attrs : DocumentAttributes),
        v.details.documentAttributes = some attrs →
        resourceItemDocumentRead (.ok (some v)) docRes ≠ .nilDeref) := by
  constructor
  · intro v docRes htmpl hnone
    simp [resourceItemDocumentRead, htmpl, hnone]
  · intro v docRes attrs hsome
    by_cases htmpl : v.template = Category2Template DocumentCategory
    · cases docRes with
      | error e => simp [resourceItemDocumentRead, htmpl, hsome]
      | ok content => simp [resourceItemDocumentRead, htmpl, hsome]
    · simp [resourceItemDocumentRead, htmpl]

/-- Witness for C10: a Document-template item with nil attributes crashes the
read; the same item with attributes present does not. -/
theorem document_read_nil_deref_witness :
    resourceItemDocumentRead (.ok (some { template := "006" })) (.ok []) =
        .nilDeref ∧
      resourceItemDocumentRead
          (.ok (some { template := "006",
                       details := { documentAttributes := some { fileName := "f" } } }))
          (.ok []) ≠ .nilDeref :=
  ⟨document_read_nil_deref.1 { template := "006" } (.ok []) (by decide) rfl,
   document_read_nil_deref.2
     { template := "006",
       details := { documentAttributes := some { fileName := "f" } } }
     (.ok []) { fileName := "f" } rfl⟩

/-! ## Codec lemmas: the field partition inside `parseSectionFromSchema` -/

theorem fieldListWrite_lookup_notin (pairs : List (String × String))
    (fl : SectionField) (s : Src) {k : String}
    (h : k ∉ pairs.map Prod.fst) :
    slookup (fieldListWrite pairs fl s) k = slookup s k := by
  induction pairs generalizing s with
  | nil => rfl
  | cons p rest ih =>
    simp only [List.map_cons, List.mem_cons, not_or] at h
    simp only [fieldListWrite, List.foldl_cons]
    rw [show (List.foldl
        (fun s p => if p.2 = fl.n then insertOv s p.1 (.gv fl.v) else s)
        (if p.2 = fl.n then insertOv s p.1 (.gv fl.v) else s) rest) =
      fieldListWrite rest fl (if p.2 = fl.n then insertOv s p.1 (.gv fl.v) else s)
      from rfl]
    rw [ih _ h.2]
    by_cases hp : p.2 = fl.n
    · simp only [hp, if_pos rfl]
      exact slookup_insertOv_ne s (.gv fl.v) (fun he => h.1 he.symm)
    · simp [hp]

theorem fieldListWrite_lookup_mem (pairs : List (String × String))
    (fl : SectionField) (s : Src) {k fk : String}
    (hmem : (k, fk) ∈ pairs) (hnd : (pairs.map Prod.fst).Nodup) :
    slookup (fieldListWrite pairs fl s) k =
      if fk = fl.n then some (.gv fl.v) else slookup s k := by
  induction pairs generalizing s with
  | nil => cases hmem
  | cons p rest ih =>
    simp only [List.map_cons, List.nodup_cons] at hnd
    simp only [fieldListWrite, List.foldl_cons]
    rw [show (List.foldl
        (fun s p => if p.2 = fl.n then insertOv s p.1 (.gv fl.v) else s)
        (if p.2 = fl.n then insertOv s p.1 (.gv fl.v) else s) rest) =
      fieldListWrite rest fl (if p.2 = fl.n then insertOv s p.1 (.gv fl.v) else s)
      from rfl]
    rcases List.mem_cons.mp hmem with heq | hrest
    · have hk : p.1 = k := by rw [← heq]
      have hfk : p.2 = fk := by rw [← heq]
      have hnotin : k ∉ rest.map Prod.fst := hk ▸ hnd.1
      rw [fieldListWrite_lookup_notin rest fl _ hnotin]
      subst hk hfk
      by_cases hp : p.2 = fl.n
      · simp [hp, slookup_insertOv_self]
      · simp [hp]
    · have hkin : k ∈ rest.map Prod.fst :=
        List.mem_map.mpr ⟨(k, fk), hrest, rfl⟩
      have hpk : p.1 ≠ k := fun he => hnd.1 (he ▸ hkin)
      rw [ih _ hrest hnd.2]
      by_cases hp : p.2 = fl.n
      · rw [if_pos hp, slookup_insertOv_ne s (.gv fl.v) hpk]
      · rw [if_neg hp]

/-- The `src` component of a `sectionFieldStep` does not depend on the
`found` branch. -/
theorem sectionFieldStep_fst (g : SectionGroup) (acc : Src × List SectionField)
    (fl : SectionField) :
    (sectionFieldStep g acc fl).1 = fieldListWrite g.fields fl acc.1 := by
  simp only [sectionFieldStep]
  split <;> rfl

/-- The leftover predicate: no pair of the group's field map matches the
field's name key. -/
def isLeftover (g : SectionGroup) (fl : SectionField) : Bool :=
  !(g.fields.any fun p => p.2 = fl.n)

/-- The `leftFields` accumulated over a field list are exactly the fields
whose name key matches no value of the group's field map, in input order. -/
theorem foldl_sectionFieldStep_snd (g : SectionGroup)
    (fs : List SectionField) (acc : Src × List SectionField) :
    (fs.foldl (sectionFieldStep g) acc).2 =
      acc.2 ++ fs.filter (isLeftover g) := by
  induction fs using List.reverseRecOn with
  | nil => simp
  | append_singleton l x ih =>
    rw [List.foldl_append, List.filter_append]
    simp only [List.foldl_cons, List.foldl_nil]
    by_cases hf : (g.fields.any fun p => p.2 = x.n) = true
    · have : isLeftover g x = false := by simp [isLeftover, hf]
      simp [sectionFieldStep, hf, ih, this]
    · have hl : isLeftover g x = true := by
        simp only [isLeftover, Bool.not_eq_true']
        exact Bool.not_eq_true _ ▸ hf
      simp [sectionFieldStep, hf, ih, hl]

/-- The `src` value finally stored for a mapped configuration key is the
value of the last section field whose name key equals the mapped vault key
(last write wins), or the initial binding when no field matches. -/
theorem foldl_sectionFieldStep_fst_lookup (g : SectionGroup)
    (fs : List SectionField) (acc : Src × List SectionField) {k fk : String}
    (hmem : (k, fk) ∈ g.fields) (hnd : (g.fields.map Prod.fst).Nodup) :
    slookup (fs.foldl (sectionFieldStep g) acc).1 k =
      (fs.filter fun fl => fl.n = fk).getLast?.elim (slookup acc.1 k)
        (fun fl => some (.gv fl.v)) := by
  induction fs using List.reverseRecOn with
  | nil => simp
  | append_singleton l x ih =>
    rw [List.foldl_append, List.filter_append]
    simp only [List.foldl_cons, List.foldl_nil]
    rw [sectionFieldStep_fst, fieldListWrite_lookup_mem g.fields x _ hmem hnd]
    by_cases hx : x.n = fk
    · rw [if_pos hx.symm]
      have hfilter : List.filter (fun fl => fl.n = fk) [x] = [x] := by
        simp [hx]
      rw [hfilter, List.getLast?_concat]
      rfl
    · rw [if_neg (fun h => hx h.symm)]
      have hfilter : List.filter (fun fl => fl.n = fk) [x] = [] := by
        simp [hx]
      rw [hfilter, List.append_nil, ih]

/-- The extra-fields entry of a matched group: the generic re-encoding of
exactly the unmatched fields, in input order. -/
theorem processGroupSection_field (s : Section) (g : SectionGroup) :
    slookup (processGroupSection s g) "field" =
      some (.flds (ProcessField (s.fields.filter (isLeftover g)))) := by
  simp only [processGroupSection]
  rw [slookup_insertOv_self, foldl_sectionFieldStep_snd]
  rfl

/-- The named-attribute entry of a matched group: the mapped configuration
key holds the value of the last section field carrying the mapped vault
field-name key, and is absent when no field carries it. -/
theorem processGroupSection_lookup (s : Section) (g : SectionGroup)
    {k fk : String} (hmem : (k, fk) ∈ g.fields)
    (hnd : (g.fields.map Prod.fst).Nodup) (hk1 : k ≠ "title")
    (hk2 : k ≠ "field") :
    slookup (processGroupSection s g) k =
      (s.fields.filter fun fl => fl.n = fk).getLast?.map
        (fun fl => ConfigVal.gv fl.v) := by
  simp only [processGroupSection]
  rw [slookup_insertOv_ne _ _ (fun h => hk2 h.symm)]
  rw [foldl_sectionFieldStep_fst_lookup _ _ _ hmem hnd]
  have htk : ¬("title" = k) := fun h => hk1 h.symm
  have hinit : slookup [("title", ConfigVal.gv (.vstr s.title))] k = none := by
    simp [slookup, htk]
  rw [hinit]
  cases (s.fields.filter fun fl => fl.n = fk).getLast? <;> rfl

/-- `groupLoop` processes, in group-list order, exactly the groups whose
selector equals the section's name, and its flag records whether any did. -/
theorem groupLoop_eq (s : Section) (groups : List SectionGroup) :
    groupLoop s groups =
      (groups.any (fun g => s.name = g.selector),
       (groups.filter (fun g => s.name = g.selector)).map
         (fun g => (g.name, processGroupSection s g))) := by
  suffices h : ∀ (b : Bool) (l : List (String × Src)),
      groups.foldl
        (fun acc g =>
          if s.name = g.selector then
            (true, acc.2 ++ [(g.name, processGroupSection s g)])
          else acc) (b, l) =
      (b || groups.any (fun g => s.name = g.selector),
       l ++ (groups.filter (fun g => s.name = g.selector)).map
         (fun g => (g.name, processGroupSection s g))) by
    simpa [groupLoop] using h false []
  induction groups with
  | nil => intro b l; simp
  | cons g rest ih =>
    intro b l
    simp only [List.foldl_cons]
    by_cases hg : s.name = g.selector
    · rw [if_pos hg, ih]
      have h1 : (decide (s.name = g.selector)) = true := by simp [hg]
      simp [List.filter_cons, List.any_cons, h1]
    · rw [if_neg hg, ih]
      have h1 : (decide (s.name = g.selector)) = false := by simp [hg]
      simp [List.filter_cons, List.any_cons, h1]

/-- A section is a leftover section when no group selector equals its name. -/
def isLeftoverSection (groups : List SectionGroup) (sec : Section) : Bool :=
  !(groups.any fun g => sec.name = g.selector)

/-- The per-section accumulation step of `parseSectionFromSchema`. -/
def parseStep (groups : List SectionGroup) (acc : DState × List Section)
    (sec : Section) : DState × List Section :=
  let gl := groupLoop sec groups
  let d2 := gl.2.foldl (fun st e => insertOv st e.1 (.groupVal e.2)) acc.1
  if gl.1 then (d2, acc.2) else (d2, acc.2 ++ [sec])

/-- `parseSectionFromSchema` is the fold of `parseStep` followed by the final
`d.Set("section", ...)`. -/
theorem parseSectionFromSchema_eq (sections : List Section) (d : DState)
    (groups : List SectionGroup) :
    parseSectionFromSchema sections d groups =
      insertOv (sections.foldl (parseStep groups) (d, [])).1 "section"
        (.sectionsVal (ProcessSections
          (sections.foldl (parseStep groups) (d, [])).2)) := rfl

/-- The leftover sections accumulated by the fold are exactly the sections
matching no group, in input order. -/
theorem foldl_parseStep_snd (groups : List SectionGroup)
    (sections : List Section) (acc : DState × List Section) :
    (sections.foldl (parseStep groups) acc).2 =
      acc.2 ++ sections.filter (isLeftoverSection groups) := by
  induction sections using List.reverseRecOn with
  | nil => simp
  | append_singleton l x ih =>
    rw [List.foldl_append, List.filter_append]
    simp only [List.foldl_cons, List.foldl_nil]
    by_cases hu : (groups.any fun g => x.name = g.selector) = true
    · have hl : isLeftoverSection groups x = false := by
        simp [isLeftoverSection, hu]
      have hf : List.filter (isLeftoverSection groups) [x] = [] := by
        simp [hl]
      simp [parseStep, groupLoop_eq, hu, ih, hf]
    · have hl : isLeftoverSection groups x = true := by
        simp only [isLeftoverSection, Bool.not_eq_true']
        exact Bool.not_eq_true _ ▸ hu
      have hf : List.filter (isLeftoverSection groups) [x] = [x] := by
        simp [hl]
      simp [parseStep, groupLoop_eq, hu, ih, hf, List.append_assoc]

/-! ## C2: decode group matching and field partition -/

/-- C2 counterexample: the claim says a section matches at most the *first*
group whose selector equals its name, but the group loop has no break: with
two groups sharing selector `"s"`, the section populates the second group
(`"b"`) as well, which the claim rules out. -/
theorem decode_first_match_counterexample :
    slookup (parseSectionFromSchema cexSections [] cexGroups) "b" ≠ none := by
  decide

/-- C2 (amended): `parseSectionFromSchema` tests each section's name against
every group's selector in group-list order by exact equality and processes the
section for *every* matching group (not only the first); for a matching group
the fields are partitioned — a configuration key of the group's field map
(a Go map: distinct keys, and `title`/`field` are reserved entries of `src`)
receives the value of the last section field carrying the mapped vault
field-name key, and the unmatched fields are re-encoded generically, in input
order, under the group's `"field"` entry. -/
theorem decode_group_matching_partition :
    ∀ (s : Section) (groups : List SectionGroup),
      (groupLoop s groups =
        (groups.any (fun g => s.name = g.selector),
         (groups.filter (fun g => s.name = g.selector)).map
           (fun g => (g.name, processGroupSection s g)))) ∧
      (∀ (g : SectionGroup) (k fk : String), (k, fk) ∈ g.fields →
        (g.fields.map Prod.fst).Nodup → k ≠ "title" → k ≠ "field" →
        slookup (processGroupSection s g) k =
          (s.fields.filter fun fl => fl.n = fk).getLast?.map
            (fun fl => ConfigVal.gv fl.v)) ∧
      (∀ g : SectionGroup, slookup (processGroupSection s g) "field" =
        some (.flds (ProcessField (s.fields.filter (isLeftover g))))) :=
  fun s groups =>
    ⟨groupLoop_eq s groups,
     fun g _ _ hmem hnd hk1 hk2 =>
       processGroupSection_lookup s g hmem hnd hk1 hk2,
     fun g => processGroupSection_field s g⟩

/-- Witness for C2 at a concrete section and group. -/
theorem decode_group_matching_partition_witness :
    slookup (processGroupSection
      { name := "s", title := "T",
        fields := [{ k := "string", t := "f1", v := .vstr "v1", n := "n1" }] }
      { selector := "s", name := "a", fields := [("x", "n1")] }) "x" =
      some (ConfigVal.gv (.vstr "v1")) := by
  rw [(decode_group_matching_partition
    { name := "s", title := "T",
      fields := [{ k := "string", t := "f1", v := .vstr "v1", n := "n1" }] }
    []).2.1 { selector := "s", name := "a", fields := [("x", "n1")] } "x" "n1"
    (by decide) (by decide) (by decide) (by decide)]
  rfl

/-! ## C3: generic rendering of leftover sections and fields -/

/-- C3: every section matching no group selector is rendered, in input order,
into the `"section"` entry as `{name: title, field: [...]}`, and every
generically rendered field is `{name: displayText, <key>: value}` with the
generic field-kind mapping (`menu→sex`, `URL→url`, `monthYear→month_year`,
`cctype→card_type`, `concealed→totp` iff the field-name key begins with
`TOTP_` else `concealed→concealed`, any other kind maps to itself). -/
theorem generic_section_rendering :
    (∀ (sections : List Section) (d : DState) (groups : List SectionGroup),
      slookup (parseSectionFromSchema sections d groups) "section" =
        some (.sectionsVal (ProcessSections
          (sections.filter (isLeftoverSection groups))))) ∧
      (∀ ss : List Section, ProcessSections ss =
        ss.map fun s => { name := s.title, field := ProcessField s.fields }) ∧
      (∀ (fs : List SectionField) (f : SectionField), f ∈ fs →
        ({ name := f.t, key := fieldKeyOf f, value := f.v } : RenderedField) ∈
          ProcessField fs) ∧
      (∀ f : SectionField,
        (f.k = "menu" → fieldKeyOf f = "sex") ∧
        (f.k = "URL" → fieldKeyOf f = "url") ∧
        (f.k = "monthYear" → fieldKeyOf f = "month_year") ∧
        (f.k = "cctype" → fieldKeyOf f = "card_type") ∧
        (f.k = "concealed" →
          fieldKeyOf f = if strHasPre f.n "TOTP_" then "totp" else "concealed") ∧
        (f.k ∉ (["menu", "URL", "monthYear", "cctype", "concealed"] : List String) →
          fieldKeyOf f = f.k)) := by
  refine ⟨?_, fun ss => rfl, ?_, ?_⟩
  · intro sections d groups
    rw [parseSectionFromSchema_eq, slookup_insertOv_self,
      foldl_parseStep_snd groups sections (d, [])]
    rfl
  · intro fs f hf
    exact List.mem_map.mpr ⟨f, hf, rfl⟩
  · intro f
    refine ⟨fun h => by simp [fieldKeyOf, h], fun h => by simp [fieldKeyOf, h],
      fun h => by simp [fieldKeyOf, h], fun h => by simp [fieldKeyOf, h],
      fun h => by simp [fieldKeyOf, h], fun h => ?_⟩
    simp only [List.mem_cons, List.not_mem_nil, or_false, not_or] at h
    obtain ⟨h1, h2, h3, h4, h5⟩ := h
    simp [fieldKeyOf, h1, h2, h3, h4, h5]

/-- Witness for C3: a no-group decode renders both sections generically, a
`concealed` field named `TOTP_1` renders under key `totp`, one named `note`
under key `concealed`. -/
theorem generic_section_rendering_witness :
    slookup (parseSectionFromSchema cexSections [] []) "section" =
        some (.sectionsVal (ProcessSections cexSections)) ∧
      fieldKeyOf { k := "concealed", t := "t", v := .vstr "x", n := "TOTP_1" } =
        "totp" ∧
      fieldKeyOf { k := "concealed", t := "t", v := .vstr "x", n := "note" } =
        "concealed" := by
  refine ⟨?_, ?_, ?_⟩
  · rw [generic_section_rendering.1 cexSections [] []]
    decide
  · rw [(generic_section_rendering.2.2.2
      { k := "concealed", t := "t", v := .vstr "x", n := "TOTP_1" }).2.2.2.2.1 rfl]
    decide
  · rw [(generic_section_rendering.2.2.2
      { k := "concealed", t := "t", v := .vstr "x", n := "note" }).2.2.2.2.1 rfl]
    decide

/-! ## C1: identity encode-then-decode round trip -/

/-- C1: encoding the Ada Lovelace identification configuration (plus one
freeform `string` field keyed `nickname`) into vault sections as
`resourceItemIdentityCreate` builds them, then decoding with
`parseSectionFromSchema` under the identity group definitions, reproduces
`firstname`/`lastname`/`sex` exactly; the freeform field lands in the group's
extra-fields list and is retrievable there by its display name
(membership and name-keyed lookup, not positional access). -/
theorem identity_round_trip :
    groupAttr adaDecoded "identification" "firstname" =
        some (.gv (.vstr "Ada")) ∧
      groupAttr adaDecoded "identification" "lastname" =
        some (.gv (.vstr "Lovelace")) ∧
      groupAttr adaDecoded "identification" "sex" =
        some (.gv (.vstr "female")) ∧
      ({ name := "nickname", key := "string", value := .vstr "Countess" } :
          RenderedField) ∈ groupExtraFields adaDecoded "identification" ∧
      (groupExtraFields adaDecoded "identification").find?
          (fun rf => rf.name == "nickname") =
        some { name := "nickname", key := "string", value := .vstr "Countess" } := by
  decide

end OnePassword
